import Mathlib

set_option maxRecDepth 40000

namespace ErrsRepo

/-- Modelled from the spec: the closed classification enumeration `Kind`
(errs.go, the file that declares the type and its constants, is not under
src/).  Spec §3 lists the constants and fixes the zero value as `Other`,
so `Other` is the first constructor.  The Go constant `IO` is spelled
`Io` here. -/
inductive Kind where
  | Other
  | Invalid
  | Permission
  | Io
  | Exist
  | NotExist
  | Private
  | Internal
  | BrokenLink
  | Database
  | Validation
  | Unanticipated
  | InvalidRequest
  | Unauthenticated
  | Unauthorized
deriving DecidableEq

/-- Modelled from the spec: `Kind.String()` (errs.go is not under src/).
Spec §3 says each value renders to a stable human-readable name and §8
uses the spelling "Unanticipated" for the rendered name of
`Unanticipated`, so the names are the constant names themselves. -/
def kindString : Kind → String
  | Kind.Other => "Other"
  | Kind.Invalid => "Invalid"
  | Kind.Permission => "Permission"
  | Kind.Io => "IO"
  | Kind.Exist => "Exist"
  | Kind.NotExist => "NotExist"
  | Kind.Private => "Private"
  | Kind.Internal => "Internal"
  | Kind.BrokenLink => "BrokenLink"
  | Kind.Database => "Database"
  | Kind.Validation => "Validation"
  | Kind.Unanticipated => "Unanticipated"
  | Kind.InvalidRequest => "InvalidRequest"
  | Kind.Unauthenticated => "Unauthenticated"
  | Kind.Unauthorized => "Unauthorized"

/-- The statusCode map of src/httperrors.go lines 40-56: a total map from
every Kind to an HTTP status code.  `statusCode[0]` in the source is the
lookup of the zero Kind, i.e. `Other`. -/
def statusCode : Kind → Int
  | Kind.Unauthenticated => 401
  | Kind.Unauthorized => 403
  | Kind.Permission => 403
  | Kind.Other => 400
  | Kind.Invalid => 400
  | Kind.Exist => 400
  | Kind.NotExist => 400
  | Kind.Private => 400
  | Kind.BrokenLink => 400
  | Kind.Validation => 400
  | Kind.InvalidRequest => 400
  | Kind.Io => 500
  | Kind.Internal => 500
  | Kind.Database => 500
  | Kind.Unanticipated => 500

/-- A Go `error` value as the two translator files see it: `nil`, a
`*errs.Error` (the chain link type of this package, whose fields are
modelled from spec §3: caller location `op`, classification, code,
parameter, wrapped cause and the strip flag), or any other error carrying
just a message. -/
inductive ErrChain where
  | nil : ErrChain
  | plain : String → ErrChain
  | errVal : String → Kind → String → String → ErrChain → Bool → ErrChain
deriving DecidableEq

/-- Modelled from the spec: the `errs.Error` struct (errs.go is not under
src/).  Spec §3: classification, code, parameter, wrapped cause, caller
location, and the transient already-stripped flag. -/
structure ErrorVal where
  op : String
  kind : Kind
  code : String
  param : String
  err : ErrChain
  stripError : Bool
deriving DecidableEq

/-- View of an `ErrorVal` as the Go `error` interface value holding it. -/
def ErrorVal.toChain (e : ErrorVal) : ErrChain :=
  ErrChain.errVal e.op e.kind e.code e.param e.err e.stripError

/-- Concatenation of segments with the `": "` separator used between the
own-info parts of a rendered Error Value. -/
def catSegs : List String → String
  | [] => ""
  | [s] => s
  | s :: rest => s ++ ": " ++ catSegs rest

/-- Modelled from the spec: the own-info part of `Error.Error()` (errs.go
is not under src/).  Spec §4.1 Render(): caller location, classification
name if non-default, code if set, parameter if set, in that order. -/
def ownStr (op : String) (k : Kind) (code param : String) : String :=
  catSegs ((if op = "" then [] else [op]) ++
    (if k = Kind.Other then [] else [kindString k]) ++
    (if code = "" then [] else [code]) ++
    (if param = "" then [] else [param]))

/-- Modelled from the spec: `Error.Error()` rendering of a chain (errs.go
is not under src/).  Spec §4.1 Render(): own info, then, only when a
cause is wrapped, the delimiter `"|: "` followed by the cause's own
rendering (recursive for a wrapped Error Value, the plain message
otherwise). -/
def renderChain : ErrChain → String
  | ErrChain.nil => ""
  | ErrChain.plain m => m
  | ErrChain.errVal op k c p e _ =>
      match e with
      | ErrChain.nil => ownStr op k c p
      | rest => ownStr op k c p ++ "|: " ++ renderChain rest

/-- Rendering of an `ErrorVal`, i.e. the Go `e.Error()` call. -/
def renderErrorVal (e : ErrorVal) : String :=
  renderChain e.toChain

/-- Index of the first occurrence of `pat` in a character list, or -1,
as Go `strings.Index` computes it (restricted to ASCII, where Go's byte
indices and character indices agree). -/
def subIndexAux (pat : List Char) : List Char → Int
  | [] => if pat.isPrefixOf ([] : List Char) then 0 else -1
  | c :: tl =>
      if pat.isPrefixOf (c :: tl) then 0
      else
        let r := subIndexAux pat tl
        if r = -1 then -1 else r + 1

/-- Go `strings.Index s pat`: first index or -1. -/
def goStringIndex (s pat : String) : Int :=
  subIndexAux pat.data s.data

/-- Go string slicing `s[i:]`: defined (as `some`) only for
`0 ≤ i ≤ len(s)`; out of that range Go panics, modelled as `none`. -/
def goSliceFrom (s : String) (i : Int) : Option String :=
  if 0 ≤ i ∧ i ≤ (s.data.length : Int) then some (String.mk (s.data.drop i.toNat))
  else none

/-- The body of StripStack on the rendered string (src/httperrors.go lines
177-183 and src/unnamed/part_000 lines 268-274): take the index of
`"|:"` (or -1) and slice the string from three characters after it. -/
def stripRendered (s : String) : Option String :=
  goSliceFrom s (goStringIndex s "|:" + 3)

/-- StripStack (src/httperrors.go lines 173-188, identically
src/unnamed/part_000 lines 264-279): for a `*Error`, slice its rendered
string after the `"|:"` delimiter and wrap the substring with
`errors.New`; any other error is returned unchanged.  `none` models a Go
runtime panic from the slice. -/
def stripStack : ErrChain → Option ErrChain
  | ErrChain.errVal op k c p e se =>
      (stripRendered (renderChain (ErrChain.errVal op k c p e se))).map ErrChain.plain
  | e => some e

/-- C1: the claim states that for every error whose rendered string has no
"|:" delimiter, StripStack neither panics nor changes the message.  The
code instead slices `errStr[-1+3:]`: on a `*Error` rendering to the
one-character string "x" it panics (slice bound 2 exceeds length 1), on a
`*Error` rendering to "abcd" it silently drops the first two characters,
and only non-`*Error` inputs are returned unchanged. -/
theorem C1_strip_behavior :
    stripStack (ErrChain.errVal "x" Kind.Other "" "" ErrChain.nil false) = Option.none ∧
    stripStack (ErrChain.errVal "abcd" Kind.Other "" "" ErrChain.nil false) =
      some (ErrChain.plain "cd") ∧
    stripStack (ErrChain.plain "plain msg") = some (ErrChain.plain "plain msg") ∧
    stripRendered "x" = Option.none ∧
    stripRendered "abcd" = some "cd" := by
  decide

/-- One call on the `http.ResponseWriter` collaborator: a header set, the
status-line write, or a body write. -/
inductive WEvent where
  | setHeader : String → String → WEvent
  | writeHeader : Int → WEvent
  | write : String → WEvent
deriving DecidableEq

/-- sendError of src/httperrors.go lines 159-169: Content-Type only for a
non-empty error string, always nosniff, one WriteHeader, and
`fmt.Fprintln` (newline-terminated) only for a non-empty error string. -/
def sendError (errStr : String) (httpStatusCode : Int) : List WEvent :=
  (if errStr ≠ "" then [WEvent.setHeader "Content-Type" "application/json"] else []) ++
  [WEvent.setHeader "X-Content-Type-Options" "nosniff",
   WEvent.writeHeader httpStatusCode] ++
  (if errStr ≠ "" then [WEvent.write (errStr ++ "\n")] else [])

/-- sendError of src/unnamed/part_000 lines 159-167: Content-Type is set
unconditionally; the rest matches the other file's sendError. -/
def sendErrorOld (errStr : String) (statusCode' : Int) : List WEvent :=
  [WEvent.setHeader "Content-Type" "application/json",
   WEvent.setHeader "X-Content-Type-Options" "nosniff",
   WEvent.writeHeader statusCode'] ++
  (if errStr ≠ "" then [WEvent.write (errStr ++ "\n")] else [])

/-- Concatenation of all body writes in an event list. -/
def writtenBody : List WEvent → String
  | [] => ""
  | WEvent.write s :: rest => s ++ writtenBody rest
  | _ :: rest => writtenBody rest

/-- The body writes of an event list, in order. -/
def writes : List WEvent → List String
  | [] => []
  | WEvent.write s :: rest => s :: writes rest
  | _ :: rest => writes rest

/-- The first written status line, if any. -/
def respStatus : List WEvent → Option Int
  | [] => Option.none
  | WEvent.writeHeader c :: _ => some c
  | _ :: rest => respStatus rest

/-- Test for a status-line write event. -/
def isWriteHeader : WEvent → Bool
  | WEvent.writeHeader _ => true
  | _ => false

/-- Number of status-line writes in an event list. -/
def countWriteHeader (l : List WEvent) : Nat :=
  (l.filter isWriteHeader).length

/-- One structured zerolog record at error severity: the optional `.Err`
field (as the rendered error string), `.Int` fields, `.Str` fields, and
the final message. -/
structure LogRec where
  errField : Option String
  intFields : List (String × Int)
  strFields : List (String × String)
  msg : String
deriving DecidableEq

/-- JSON string escaping as Go `encoding/json` performs it on the
characters that can occur here (quote, backslash, newline, and the HTML
characters Go escapes by default). -/
def jsonEscapeChar (c : Char) : String :=
  if c = '"' then "\\\""
  else if c = '\\' then "\\\\"
  else if c = '\n' then "\\n"
  else if c = '<' then "\\u003c"
  else if c = '>' then "\\u003e"
  else if c = '&' then "\\u0026"
  else String.singleton c

/-- Escape a whole string for JSON. -/
def jsonEscape (s : String) : String :=
  String.join (s.data.map jsonEscapeChar)

/-- One serialized JSON object member. -/
def jsonField (nm v : String) : String :=
  "\"" ++ nm ++ "\":\"" ++ jsonEscape v ++ "\""

/-- Comma-separated concatenation of serialized members. -/
def joinComma : List String → String
  | [] => ""
  | [s] => s
  | s :: rest => s ++ "," ++ joinComma rest

/-- Go `json.Marshal` of the ErrResponse / ServiceError pair of both
source files: the four optional fields kind, code, param, message in
struct order, each omitted when empty, nested under the "error" key. -/
def marshalErrResponse (kind code param msg : String) : String :=
  "\x7b\"error\":\x7b" ++
  joinComma ((if kind = "" then [] else [jsonField "kind" kind]) ++
    (if code = "" then [] else [jsonField "code" code]) ++
    (if param = "" then [] else [jsonField "param" param]) ++
    (if msg = "" then [] else [jsonField "message" msg])) ++
  "\x7d\x7d"

/-- Test for the nil wrapped cause, Go `Err == nil`. -/
def ErrChain.isNil : ErrChain → Bool
  | ErrChain.nil => true
  | _ => false

/-- Modelled from the spec: `Error.isZero()` (errs.go is not under src/).
Spec §4.3 calls an Error Value empty when all fields are zero. -/
def ErrorVal.isZero (e : ErrorVal) : Bool :=
  decide (e.op = "") && decide (e.kind = Kind.Other) && decide (e.code = "") &&
    decide (e.param = "") && e.err.isNil && decide (e.stripError = false)

/-- The `case *Error` branch of HTTPErrorResponse (src/httperrors.go lines
66-124).  The result is `none` when StripStack panics, otherwise the log
record, the writer events, and the contents of the caller's `*Error` cell
after the call (the branch executes `e.Err = fullErr` on the caller's
value at line 109, so that cell can change). -/
def httpRespErrCase (e : ErrorVal) : Option (LogRec × List WEvent × ErrorVal) :=
  let code := statusCode e.kind
  if e.isZero then
    some (⟨Option.none, [("HTTP Error StatusCode", code)], [], ""⟩, sendError "" code, e)
  else if e.kind = Kind.Unauthenticated then
    some (⟨Option.none, [("HTTP Error StatusCode", 401)], [], renderErrorVal e⟩,
      sendError "" code, e)
  else if e.kind = Kind.Unauthorized then
    some (⟨Option.none, [("HTTP Error StatusCode", 403)], [], renderErrorVal e⟩,
      sendError "" code, e)
  else
    (stripStack e.toChain).map (fun st =>
      let fullErr : ErrorVal := { e with err := st, stripError := true }
      let eAfter : ErrorVal := { e with err := fullErr.toChain }
      (⟨some (renderErrorVal e), [("HTTPStatusCode", code)],
          [("Kind", kindString e.kind), ("Parameter", e.param), ("Code", e.code)],
          "Response Error Sent"⟩,
       sendError (marshalErrResponse (kindString eAfter.kind) eAfter.code eAfter.param
          (renderErrorVal eAfter)) code,
       eAfter))

/-- The possible dynamic types of the error handed to HTTPErrorResponse:
nil, a `*Error`, or any other error (with its message). -/
inductive ErrInput where
  | nil : ErrInput
  | errVal : ErrorVal → ErrInput
  | other : String → ErrInput

/-- HTTPErrorResponse (src/httperrors.go lines 35-152): type-switch on the
error, producing one log record and the writer events; `none` models the
StripStack panic reachable in the `*Error` body-writing branch. -/
def HTTPErrorResponse : ErrInput → Option (LogRec × List WEvent)
  | ErrInput.errVal e => (httpRespErrCase e).map (fun r => (r.1, r.2.1))
  | ErrInput.other m =>
      some (⟨Option.none, [], [],
          "Unknown Error - HTTP " ++ toString (500 : Int) ++ " - " ++ m⟩,
        sendError (marshalErrResponse (kindString Kind.Unanticipated) "Unanticipated" ""
          "Unexpected error - contact support") 500)
  | ErrInput.nil =>
      some (⟨Option.none, [("HTTP Error StatusCode", statusCode Kind.Other)], [],
          "nil error - no response body sent"⟩,
        sendError "" (statusCode Kind.Other))

/-- HTTPErr (src/unnamed/part_000 lines 26-32): an explicit HTTP status
code, classification, parameter, code and one wrapped error, in the
source's field order. -/
structure HTTPErr where
  httpStatusCode : Int
  kind : Kind
  param : String
  code : String
  err : ErrChain
deriving DecidableEq

/-- The zero value `&HTTPErr\x7b\x7d` that RE starts from. -/
def HTTPErrZero : HTTPErr :=
  ⟨0, Kind.Other, "", "", ErrChain.nil⟩

/-- StatusOnly (src/unnamed/part_000 lines 59-61): the status code is the
only populated field. -/
def HTTPErr.statusOnly (hse : HTTPErr) : Bool :=
  decide (hse.httpStatusCode ≠ 0) && decide (hse.kind = Kind.Other) &&
    decide (hse.param = "") && decide (hse.code = "") && hse.err.isNil

/-- ErrKind (src/unnamed/part_000 lines 40-45): empty string for the zero
Kind, the rendered name otherwise. -/
def HTTPErr.errKind (hse : HTTPErr) : String :=
  if hse.kind = Kind.Other then "" else kindString hse.kind

/-- Error() of HTTPErr (src/unnamed/part_000 lines 69-75): empty string
when no error is wrapped, the wrapped error's message otherwise; the
message of a wrapped `*Error` is its rendering. -/
def HTTPErr.errMsg (hse : HTTPErr) : String :=
  renderChain hse.err

/-- The possible dynamic types of the error handed to HTTPError: nil, an
hError (implemented by *HTTPErr), or any other error. -/
inductive HInput where
  | nil : HInput
  | hErr : HTTPErr → HInput
  | other : String → HInput

/-- HTTPError (src/unnamed/part_000 lines 97-152): type-switch on the
error.  The function only acts under `if err != nil`; there is no else
branch, so a nil error produces no log record and no writer events. -/
def HTTPError : HInput → Option LogRec × List WEvent
  | HInput.nil => (Option.none, [])
  | HInput.hErr e =>
      if e.statusOnly then
        (some ⟨Option.none, [("HTTP Error StatusCode", e.httpStatusCode)], [], ""⟩,
         sendErrorOld "" e.httpStatusCode)
      else
        (some ⟨Option.none, [], [],
            "HTTP " ++ toString e.httpStatusCode ++ " - " ++ e.errMsg⟩,
         sendErrorOld (marshalErrResponse e.errKind e.code e.param e.errMsg)
           e.httpStatusCode)
  | HInput.other m =>
      (some ⟨Option.none, [], [],
          "Unknown Error - HTTP " ++ toString (500 : Int) ++ " - " ++ m⟩,
       sendErrorOld (marshalErrResponse (kindString Kind.Unanticipated) "Unanticipated" ""
         "Unexpected error - contact support") 500)

/-- The dynamic argument types RE's type switch distinguishes
(src/unnamed/part_000 lines 183-221): int, Kind, string, Code, Parameter,
`*Error`, any other error, and any unrecognized type (carrying the
description that the `unknown type` message would print). -/
inductive REArg where
  | int : Int → REArg
  | kind : Kind → REArg
  | str : String → REArg
  | code : String → REArg
  | param : String → REArg
  | errVal : ErrorVal → REArg
  | err : String → REArg
  | unknown : String → REArg
deriving DecidableEq

/-- Outcome of RE: a runtime panic (zero arguments, or the StripStack
slice panic inside the `*Error` case), the early `fmt.Errorf` return on
an unrecognized argument type, or the built HTTPErr. -/
inductive LoopOut where
  | panicked : LoopOut
  | unknownType : String → LoopOut
  | built : HTTPErr → LoopOut
deriving DecidableEq

/-- The `case *Error` body of RE (src/unnamed/part_000 lines 194-214):
`copy := *arg` takes a value copy of the caller's cell, StripStack runs on
the copy's rendering, the copy's Err and StripError fields are overwritten,
and `e.Err` is pointed at the copy.  The first component of the result is
the contents of the caller's cell after the statement (no write in the
source targets it). -/
def reErrValCase (argCell : ErrorVal) (e : HTTPErr) : Option (ErrorVal × HTTPErr) :=
  (stripStack argCell.toChain).map (fun st =>
    (argCell,
     { e with
        err := (ErrChain.errVal argCell.op argCell.kind argCell.code argCell.param st true) }))

/-- One iteration of RE's argument loop (src/unnamed/part_000 lines
183-221). -/
def reStep (e : HTTPErr) : REArg → LoopOut
  | REArg.int n => LoopOut.built { e with httpStatusCode := n }
  | REArg.kind k => LoopOut.built { e with kind := k }
  | REArg.str s => LoopOut.built { e with code := s }
  | REArg.code c => LoopOut.built { e with code := c }
  | REArg.param p => LoopOut.built { e with param := p }
  | REArg.errVal ev =>
      match reErrValCase ev e with
      | Option.none => LoopOut.panicked
      | some r => LoopOut.built r.2
  | REArg.err m => LoopOut.built { e with err := ErrChain.plain m }
  | REArg.unknown t =>
      LoopOut.unknownType ("unknown type " ++ t ++ " in error call")

/-- RE's argument loop with its early return on an unknown type. -/
def reLoop (e : HTTPErr) : List REArg → LoopOut
  | [] => LoopOut.built e
  | a :: rest =>
      match reStep e a with
      | LoopOut.built e2 => reLoop e2 rest
      | out => out

/-- The chain deduplication tail of RE (src/unnamed/part_000 lines
224-259), applied when the final wrapped cause is a `*Error`: the
sequential Kind, Code and Param rules, each mutating the inner value
(through `e.Err`) and possibly the outer one. -/
def dedup (e : HTTPErr) : HTTPErr :=
  match e.err with
  | ErrChain.errVal op pk0 pc0 pp0 pe pse =>
      let pk1 := if pk0 = e.kind then Kind.Other else pk0
      let ek := if e.kind = Kind.Other then pk1 else e.kind
      let pk2 := if e.kind = Kind.Other then Kind.Other else pk1
      let pc1 := if pc0 = e.code then "" else pc0
      let ec := if e.code = "" then pc1 else e.code
      let pc2 := if e.code = "" then "" else pc1
      let pp1 := if pp0 = e.param then "" else pp0
      let ep := if e.param = "" then pp1 else e.param
      let pp2 := if e.param = "" then "" else pp1
      { e with
          kind := ek
          code := ec
          param := ep
          err := (ErrChain.errVal op pk2 pc2 pp2 pe pse) }
  | _ => e

/-- RE (src/unnamed/part_000 lines 176-260): panic on zero arguments,
otherwise the classification loop followed, when the final wrapped cause
is a `*Error`, by the deduplication rules. -/
def RE (args : List REArg) : LoopOut :=
  if args.isEmpty then LoopOut.panicked
  else
    match reLoop HTTPErrZero args with
    | LoopOut.built e => LoopOut.built (dedup e)
    | out => out

/-- The Kind merge rule exactly as claim C3 words it: if the inner kind
equals the outer one, the inner is reset to Other; then, if the outer kind
is Other, the inner kind is promoted into the outer and the inner is reset
to Other.  Returns (new outer, new inner). -/
def mergeKindSpec (cur prev : Kind) : Kind × Kind :=
  let prev1 := if prev = cur then Kind.Other else prev
  if cur = Kind.Other then (prev1, Kind.Other) else (cur, prev1)

/-- The identical merge rule for Code and for Param, with the empty string
as the cleared value.  Returns (new outer, new inner). -/
def mergeStrSpec (cur prev : String) : String × String :=
  let prev1 := if prev = cur then "" else prev
  if cur = "" then (prev1, "") else (cur, prev1)

theorem ErrChain.isNil_eq_true (c : ErrChain) : c.isNil = true ↔ c = ErrChain.nil := by
  cases c <;> simp [ErrChain.isNil]

theorem reLoop_app (xs : List REArg) (a : REArg) (e : HTTPErr) :
    reLoop e (xs ++ [a]) = (match reLoop e xs with
      | LoopOut.built e2 => reStep e2 a
      | out => out) := by
  induction xs generalizing e with
  | nil =>
      simp only [List.nil_append, reLoop]
      cases h : reStep e a <;> simp [reLoop, h]
  | cons x xs ih =>
      simp only [List.cons_append, reLoop]
      cases h : reStep e x <;> simp [ih]

theorem dedup_spec (sc : Int) (k : Kind) (pa c op : String) (pk : Kind)
    (pc pp : String) (pe : ErrChain) (pse : Bool) :
    dedup ⟨sc, k, pa, c, ErrChain.errVal op pk pc pp pe pse⟩ =
      ⟨sc, (mergeKindSpec k pk).1, (mergeStrSpec pa pp).1, (mergeStrSpec c pc).1,
        ErrChain.errVal op (mergeKindSpec k pk).2 (mergeStrSpec c pc).2
          (mergeStrSpec pa pp).2 pe pse⟩ := by
  simp only [dedup, mergeKindSpec, mergeStrSpec]
  by_cases h1 : pk = k <;> by_cases h2 : k = Kind.Other <;>
    by_cases h3 : pc = c <;> by_cases h4 : c = "" <;>
    by_cases h5 : pp = pa <;> by_cases h6 : pa = "" <;>
    simp [h1, h2, h3, h4, h5, h6]

/-- C10: StatusOnly returns true iff the status code is non-zero and Kind,
Param, Code and Err are all zero; in particular the all-zero HTTPErr is
not status-only, so HTTPError serializes the empty JSON body for it
instead of sending a status-only response. -/
theorem C10_statusOnly :
    (∀ h : HTTPErr, h.statusOnly = true ↔
      (h.httpStatusCode ≠ 0 ∧ h.kind = Kind.Other ∧ h.param = "" ∧ h.code = "" ∧
        h.err = ErrChain.nil)) ∧
    HTTPErr.statusOnly ⟨0, Kind.Other, "", "", ErrChain.nil⟩ = false ∧
    (HTTPError (HInput.hErr ⟨0, Kind.Other, "", "", ErrChain.nil⟩)).2 =
      sendErrorOld "\x7b\"error\":\x7b\x7d\x7d" 0 := by
  refine ⟨?_, by decide, rfl⟩
  intro h
  simp [HTTPErr.statusOnly, Bool.and_eq_true, decide_eq_true_eq, ErrChain.isNil_eq_true,
    and_assoc]

/-- C8: the claim says both translators write a status-only response for a
nil error.  HTTPErrorResponse does (status 400 from the zero Kind, with
the "nil error - no response body sent" log record), but HTTPError's whole
body sits under `if err != nil` with no else branch, so for nil it neither
logs nor writes anything. -/
theorem C8_amended :
    HTTPErrorResponse ErrInput.nil =
      some (⟨Option.none, [("HTTP Error StatusCode", 400)], [],
          "nil error - no response body sent"⟩,
        [WEvent.setHeader "X-Content-Type-Options" "nosniff", WEvent.writeHeader 400]) ∧
    HTTPError HInput.nil = (Option.none, []) := by
  exact ⟨rfl, rfl⟩

/-- C8 counterexample: HTTPError on a nil error writes no status line at
all, refuting the claim that it sends a status-only response. -/
theorem C8_counterexample : countWriteHeader (HTTPError HInput.nil).2 = 0 := rfl

/-- C7: response-writing contract of the two sendError helpers.  Both
always set nosniff, write the status line exactly once and write the
newline-terminated body iff the error string is non-empty; the helper in
src/httperrors.go sets Content-Type only for a non-empty body, but the
one in src/unnamed/part_000 sets it unconditionally. -/
theorem C7_amended (s : String) (c : Int) :
    (WEvent.setHeader "X-Content-Type-Options" "nosniff" ∈ sendError s c ∧
     WEvent.setHeader "X-Content-Type-Options" "nosniff" ∈ sendErrorOld s c) ∧
    (countWriteHeader (sendError s c) = 1 ∧ countWriteHeader (sendErrorOld s c) = 1) ∧
    (writes (sendError s c) = (if s = "" then [] else [s ++ "\n"]) ∧
     writes (sendErrorOld s c) = (if s = "" then [] else [s ++ "\n"])) ∧
    ((WEvent.setHeader "Content-Type" "application/json" ∈ sendError s c) ↔ s ≠ "") ∧
    WEvent.setHeader "Content-Type" "application/json" ∈ sendErrorOld s c := by
  by_cases h : s = "" <;>
    simp [sendError, sendErrorOld, countWriteHeader, writes, isWriteHeader, h,
      List.filter]

/-- C7 counterexample: the sendError of src/unnamed/part_000 sets
Content-Type: application/json even when no body is written, refuting the
claim that the header is set only with a non-empty body. -/
theorem C7_counterexample :
    WEvent.setHeader "Content-Type" "application/json" ∈ sendErrorOld "" 401 ∧
    writes (sendErrorOld "" 401) = [] := by
  decide

/-- C6: for any error without the recognized capability set, both
translators write status 500 with the fixed Unanticipated JSON body,
independent of the original message, and never fail. -/
theorem C6_unanticipated (m : String) :
    (HTTPErrorResponse (ErrInput.other m)).map (fun r => r.2) =
      some (sendError ("\x7b\"error\":\x7b\"kind\":\"Unanticipated\",\"code\":\"Unanticipated\",\"message\":\"Unexpected error - contact support\"\x7d\x7d") 500) ∧
    (HTTPError (HInput.other m)).2 =
      sendErrorOld ("\x7b\"error\":\x7b\"kind\":\"Unanticipated\",\"code\":\"Unanticipated\",\"message\":\"Unexpected error - contact support\"\x7d\x7d") 500 := by
  exact ⟨rfl, rfl⟩

/-- C5: a `*Error` of Kind Unauthenticated (resp. Unauthorized) always
produces an empty body with status 401 (resp. 403), whatever its Code,
Param and wrapped cause, and the log record carries the status code and
the error's rendered message. -/
theorem C5_auth_empty_body (e : ErrorVal) :
    (e.kind = Kind.Unauthenticated →
      HTTPErrorResponse (ErrInput.errVal e) =
        some (⟨Option.none, [("HTTP Error StatusCode", 401)], [], renderErrorVal e⟩,
          sendError "" 401)) ∧
    (e.kind = Kind.Unauthorized →
      HTTPErrorResponse (ErrInput.errVal e) =
        some (⟨Option.none, [("HTTP Error StatusCode", 403)], [], renderErrorVal e⟩,
          sendError "" 403)) := by
  constructor <;> intro h <;>
    simp [HTTPErrorResponse, httpRespErrCase, ErrorVal.isZero, h, statusCode]

/-- C5 witness: a populated Unauthenticated error gets the empty-body 401
response. -/
theorem C5_witness :
    HTTPErrorResponse (ErrInput.errVal
        ⟨"", Kind.Unauthenticated, "c1", "p1", ErrChain.plain "boom", false⟩) =
      some (⟨Option.none, [("HTTP Error StatusCode", 401)], [],
          renderErrorVal ⟨"", Kind.Unauthenticated, "c1", "p1", ErrChain.plain "boom", false⟩⟩,
        sendError "" 401) :=
  (C5_auth_empty_body ⟨"", Kind.Unauthenticated, "c1", "p1", ErrChain.plain "boom", false⟩).1
    rfl

/-- C4: for a kind-only `*Error` (no code, no param, nil cause), the
status always equals the fixed mapping, but the body is empty only for
the kinds Other (the zero value, caught by isZero), Unauthenticated and
Unauthorized; every other kind makes the error non-zero, so the
body-writing branch runs and a JSON body is sent. -/
theorem C4_amended (K : Kind) :
    (HTTPErrorResponse (ErrInput.errVal ⟨"", K, "", "", ErrChain.nil, false⟩)).map
      (fun r => (respStatus r.2, decide (writtenBody r.2 = ""))) =
      some (some (statusCode K),
        decide (K = Kind.Other ∨ K = Kind.Unauthenticated ∨ K = Kind.Unauthorized)) := by
  cases K <;> decide

/-- C4 counterexample: for Kind Internal with no other fields and a nil
cause the claim predicts an empty body; the code sends status 500 with a
non-empty JSON body. -/
theorem C4_counterexample :
    (HTTPErrorResponse (ErrInput.errVal ⟨"", Kind.Internal, "", "", ErrChain.nil, false⟩)).map
      (fun r => (respStatus r.2, decide (writtenBody r.2 = ""))) =
      some (some 500, false) := by
  decide

/-- C3: when the final wrapped cause of RE is a `*Error`, the built value
is the loop result with the claim's merge rules applied: the sequential
equality-clears-inner / empty-outer-promotes-then-clears rules for Kind,
and the identical rules for Code and Param; in particular a Validation
outer over a Validation cause leaves only the outer Validation (inner
reset to Other), and an Other outer over a Database cause promotes
Database to the outer value and clears the inner. -/
theorem C3_dedup :
    (∀ (args : List REArg) (sc : Int) (k : Kind) (pa c op : String) (pk : Kind)
        (pc pp : String) (pe : ErrChain) (pse : Bool),
      args ≠ [] →
      reLoop HTTPErrZero args =
        LoopOut.built ⟨sc, k, pa, c, ErrChain.errVal op pk pc pp pe pse⟩ →
      RE args = LoopOut.built ⟨sc, (mergeKindSpec k pk).1, (mergeStrSpec pa pp).1,
        (mergeStrSpec c pc).1,
        ErrChain.errVal op (mergeKindSpec k pk).2 (mergeStrSpec c pc).2
          (mergeStrSpec pa pp).2 pe pse⟩) ∧
    RE [REArg.errVal ⟨"inner", Kind.Validation, "", "", ErrChain.plain "boom", false⟩,
        REArg.kind Kind.Validation] =
      LoopOut.built ⟨0, Kind.Validation, "", "",
        ErrChain.errVal "inner" Kind.Other "" "" (ErrChain.plain "boom") true⟩ ∧
    RE [REArg.errVal ⟨"db", Kind.Database, "", "", ErrChain.plain "conn", false⟩] =
      LoopOut.built ⟨0, Kind.Database, "", "",
        ErrChain.errVal "db" Kind.Other "" "" (ErrChain.plain "conn") true⟩ := by
  refine ⟨?_, by decide, by decide⟩
  intro args sc k pa c op pk pc pp pe pse hne hloop
  have hargs : args.isEmpty = false := by
    cases args with
    | nil => exact absurd rfl hne
    | cons a l => rfl
  rw [RE, hargs, if_neg (by simp), hloop]
  show LoopOut.built (dedup ⟨sc, k, pa, c, ErrChain.errVal op pk pc pp pe pse⟩) = _
  rw [dedup_spec]

/-- C3 witness: the single-cause call applies the merge rules end to
end. -/
theorem C3_witness :
    RE [REArg.errVal ⟨"db", Kind.Database, "", "", ErrChain.plain "conn", false⟩] =
      LoopOut.built ⟨0, (mergeKindSpec Kind.Other Kind.Database).1,
        (mergeStrSpec "" "").1, (mergeStrSpec "" "").1,
        ErrChain.errVal "db" (mergeKindSpec Kind.Other Kind.Database).2
          (mergeStrSpec "" "").2 (mergeStrSpec "" "").2 (ErrChain.plain "conn") true⟩ :=
  C3_dedup.1 [REArg.errVal ⟨"db", Kind.Database, "", "", ErrChain.plain "conn", false⟩]
    0 Kind.Other "" "" "db" Kind.Database "" "" (ErrChain.plain "conn") true
    (by decide) (by decide)

/-- C2: RE's `*Error` case never changes the caller's cell (all writes hit
the value copy), and HTTPErrorResponse preserves the original's Op, Kind,
Code, Param and StripError fields; the amendment is that its body-writing
branch reassigns the original's Err field (`e.Err = fullErr` in the
source), so the Err cause of the caller's value is not preserved. -/
theorem C2_amended :
    (∀ (ev : ErrorVal) (e : HTTPErr) (r : ErrorVal × HTTPErr),
       reErrValCase ev e = some r → r.1 = ev) ∧
    (∀ (ev : ErrorVal) (r : LogRec × List WEvent × ErrorVal),
       httpRespErrCase ev = some r →
       r.2.2.op = ev.op ∧ r.2.2.kind = ev.kind ∧ r.2.2.code = ev.code ∧
         r.2.2.param = ev.param ∧ r.2.2.stripError = ev.stripError) := by
  constructor
  · intro ev e r h
    unfold reErrValCase at h
    obtain ⟨st, hst, hf⟩ := Option.map_eq_some'.mp h
    rw [← hf]
  · intro ev r h
    unfold httpRespErrCase at h
    split at h
    · obtain rfl := Option.some.inj h
      exact ⟨rfl, rfl, rfl, rfl, rfl⟩
    · split at h
      · obtain rfl := Option.some.inj h
        exact ⟨rfl, rfl, rfl, rfl, rfl⟩
      · split at h
        · obtain rfl := Option.some.inj h
          exact ⟨rfl, rfl, rfl, rfl, rfl⟩
        · obtain ⟨st, hst, hf⟩ := Option.map_eq_some'.mp h
          rw [← hf]
          exact ⟨rfl, rfl, rfl, rfl, rfl⟩

/-- C2 counterexample: HTTPErrorResponse's body-writing branch leaves the
caller's `*Error` cell holding a different Err field than before the
call, refuting the claim that every field of the original is unchanged. -/
theorem C2_counterexample :
    (httpRespErrCase ⟨"op1", Kind.Internal, "", "", ErrChain.plain "boom", false⟩).map
      (fun r => r.2.2) ≠
      some ⟨"op1", Kind.Internal, "", "", ErrChain.plain "boom", false⟩ := by
  decide

/-- C2 witness: the RE half at a concrete populated cause. -/
theorem C2_witness :
    ((⟨"op1", Kind.Internal, "", "", ErrChain.plain "boom", false⟩ : ErrorVal),
      ({ HTTPErrZero with
          err := (ErrChain.errVal "op1" Kind.Internal "" "" (ErrChain.plain "boom") true) } :
        HTTPErr)).1 =
      ⟨"op1", Kind.Internal, "", "", ErrChain.plain "boom", false⟩ :=
  C2_amended.1 ⟨"op1", Kind.Internal, "", "", ErrChain.plain "boom", false⟩ HTTPErrZero
    (⟨"op1", Kind.Internal, "", "", ErrChain.plain "boom", false⟩,
     { HTTPErrZero with
        err := (ErrChain.errVal "op1" Kind.Internal "" "" (ErrChain.plain "boom") true) })
    (by decide)

/-- C9: during RE's classification loop the last argument for a
destination field silently overwrites any earlier one, for each of the
five pure setter argument types, and RE(Invalid, NotExist) builds the
value with Kind NotExist. -/
theorem C9_last_wins :
    (∀ (xs : List REArg) (e : HTTPErr) (k : Kind),
       reLoop HTTPErrZero xs = LoopOut.built e →
       reLoop HTTPErrZero (xs ++ [REArg.kind k]) = LoopOut.built { e with kind := k }) ∧
    (∀ (xs : List REArg) (e : HTTPErr) (n : Int),
       reLoop HTTPErrZero xs = LoopOut.built e →
       reLoop HTTPErrZero (xs ++ [REArg.int n]) =
         LoopOut.built { e with httpStatusCode := n }) ∧
    (∀ (xs : List REArg) (e : HTTPErr) (s : String),
       reLoop HTTPErrZero xs = LoopOut.built e →
       reLoop HTTPErrZero (xs ++ [REArg.str s]) = LoopOut.built { e with code := s }) ∧
    (∀ (xs : List REArg) (e : HTTPErr) (c : String),
       reLoop HTTPErrZero xs = LoopOut.built e →
       reLoop HTTPErrZero (xs ++ [REArg.code c]) = LoopOut.built { e with code := c }) ∧
    (∀ (xs : List REArg) (e : HTTPErr) (p : String),
       reLoop HTTPErrZero xs = LoopOut.built e →
       reLoop HTTPErrZero (xs ++ [REArg.param p]) = LoopOut.built { e with param := p }) ∧
    RE [REArg.kind Kind.Invalid, REArg.kind Kind.NotExist] =
      LoopOut.built { HTTPErrZero with kind := Kind.NotExist } := by
  refine ⟨?_, ?_, ?_, ?_, ?_, by decide⟩ <;>
    intro xs e v h <;> rw [reLoop_app, h] <;> rfl

/-- C9 witness: a second Kind argument overwrites the first. -/
theorem C9_witness :
    reLoop HTTPErrZero ([REArg.kind Kind.Invalid] ++ [REArg.kind Kind.NotExist]) =
      LoopOut.built { (⟨0, Kind.Invalid, "", "", ErrChain.nil⟩ : HTTPErr) with
        kind := Kind.NotExist } :=
  C9_last_wins.1 [REArg.kind Kind.Invalid] ⟨0, Kind.Invalid, "", "", ErrChain.nil⟩
    Kind.NotExist rfl

end ErrsRepo
